import Mathlib

/-!
Verification of the native service host (`libs/native_activity_thread`).

This file gives a shallow embedding of the Rust sources:
  * `library_loader.rs`   — `NamespaceFactory::create_linker_namespace`
  * `task.rs`             — `Sender::send`, `HandlerInner::handle_tasks`, fail-stop dispatch
  * `native_application_thread.rs` — the command enum and the RPC endpoint methods
  * `native_activity_thread.rs`    — the lifecycle manager and its request handlers

Foreign (FFI) and OS calls are modelled by explicit environment records carrying
their outcomes; every foreign entry-point invocation and outbound orchestrator
call is recorded in an event trace, so "no foreign call happens" is `events = []`.
-/

/-- Result type mirroring `anyhow::Result<()>`: either success or an error message. -/
inductive RustResult where
  | ok : RustResult
  | err (msg : String) : RustResult

deriving DecidableEq

/-- Decimal digit to character, as Rust's `format!` renders base-10 digits. -/
def digitChar10 (d : Nat) : Char := Char.ofNat (48 + d)

/-- Fuel-based most-significant-first decimal digit list (reduces definitionally). -/
def natDecimalAux : Nat → Nat → List Char
  | 0, _ => []
  | fuel + 1, n =>
    if n = 0 then [] else natDecimalAux fuel (n / 10) ++ [digitChar10 (n % 10)]

/-- Decimal rendering of a natural number, modelling Rust's `format!("{}", n)` for
unsigned integers. -/
def natDecimal (n : Nat) : String := if n = 0 then "0" else ⟨natDecimalAux n n⟩

/-- Decimal rendering of an integer, modelling `format!("{}", i)` for `i64`. -/
def intDecimal (i : Int) : String :=
  if i < 0 then "-" ++ natDecimal i.natAbs else natDecimal i.natAbs

/-- Check whether a string contains an interior NUL byte; `CString::new` fails
exactly on such strings. -/
def hasNul (s : String) : Bool := s.data.any (fun c => c == Char.ofNat 0)

/-- Render an error message carrying the `dlerror()` diagnostic, modelling the
`bail_with_dlerror!` macro of `library_loader.rs`: when `dlerror()` returned a
string it is appended after ": ", otherwise the bare message is used. -/
def dlerrMsg (base : String) : Option String → String
  | some diag => base ++ ": " ++ diag
  | none => base

/-- Largest value of a Rust `u32`; `checked_add(1)` on the serial fails above it. -/
def UINT32_MAX : Nat := 4294967295

/-- Model of `library_loader.rs::NamespaceFactory`: a base name plus the serial
counter used to make namespace names unique (a `u32` in the source, hence the
`UINT32_MAX` overflow check below). -/
structure NamespaceFactory where
  base_name : String
  serial : Nat

deriving DecidableEq

/-- Constructor `NamespaceFactory::new`. -/
def NamespaceFactory.new (base_name : String) : NamespaceFactory :=
  { base_name, serial := 0 }

/-- Model of `library_loader.rs::LinkerNamespace`: the OS handle is opaque, the
process-unique name is what the claims are about. -/
structure LinkerNamespace where
  name : String

deriving DecidableEq

/-- Outcome of the `android_create_namespace` OS call: whether it returned a
non-null namespace, and the `dlerror()` diagnostic when it did not. -/
structure CreateNsEnv where
  osOk : Bool
  osDiag : Option String

deriving DecidableEq

/-- Namespace name built by `format!("{}-{}", self.base_name, self.serial)`. -/
def mkNamespaceName (base : String) (serial : Nat) : String :=
  base ++ "-" ++ natDecimal serial

/-- Model of `NamespaceFactory::create_linker_namespace`. The three `CString::new`
conversions fail on interior NUL; on OS success the `u32` serial is bumped via
`checked_add`, failing ("too many namespaces were created") on overflow; on OS
failure the `dlerror` diagnostic is surfaced. The serial is incremented only on
the fully successful path, as in the source. -/
def create_linker_namespace (f : NamespaceFactory) (env : CreateNsEnv)
    (library_paths : List String) (permitted_libs_dir : String) :
    Except String (LinkerNamespace × NamespaceFactory) :=
  if hasNul (mkNamespaceName f.base_name f.serial) then .error "invalid namespace name"
  else if hasNul (String.intercalate ":" library_paths) then .error "invalid library paths"
  else if hasNul permitted_libs_dir then .error "invalid permitted libs dir"
  else if env.osOk then
    if f.serial + 1 ≤ UINT32_MAX then
      .ok (⟨mkNamespaceName f.base_name f.serial⟩, { f with serial := f.serial + 1 })
    else .error "too many namespaces were created"
  else .error (dlerrMsg "android_create_namespace failed" env.osDiag)

/-- Run a chain of `create_linker_namespace` calls on one factory, threading the
factory returned by each successful call (a failed call leaves it unchanged, as
`&mut self` does in the source), and collect the names of the successful calls. -/
def runFactory (f : NamespaceFactory) :
    List (CreateNsEnv × List String × String) → List String
  | [] => []
  | (env, paths, permitted) :: rest =>
    match create_linker_namespace f env paths permitted with
    | .ok (ns, f1) => ns.name :: runFactory f1 rest
    | .error _ => runFactory f rest

/-! ## Ordered map model of `std::collections::BTreeMap`

`NativeActivityThread::services` is a `BTreeMap<SpIBinder, NativeService>`;
binder tokens are modelled as naturals and the map as an association list with
strictly increasing keys, so that `values_mut` iteration order ("table order")
is the key order, as for the real `BTreeMap`. -/

/-- Insert or replace, keeping keys strictly sorted (`BTreeMap::insert`). -/
def btInsert {α : Type} (k : Nat) (v : α) : List (Nat × α) → List (Nat × α)
  | [] => [(k, v)]
  | (k1, v1) :: rest =>
    if k < k1 then (k, v) :: (k1, v1) :: rest
    else if k = k1 then (k, v) :: rest
    else (k1, v1) :: btInsert k v rest

/-- Remove a key, returning the removed value and the rest (`BTreeMap::remove`). -/
def btRemove {α : Type} (k : Nat) : List (Nat × α) → Option (α × List (Nat × α))
  | [] => none
  | (k1, v1) :: rest =>
    if k = k1 then some (v1, rest)
    else match btRemove k rest with
      | some (v, rest1) => some (v, (k1, v1) :: rest1)
      | none => none

/-- Lookup (`BTreeMap::get` / `get_mut`). -/
def btGet {α : Type} (k : Nat) : List (Nat × α) → Option α
  | [] => none
  | (k1, v1) :: rest => if k = k1 then some v1 else btGet k rest

/-- Keys of the map, in table order. -/
def btKeys {α : Type} (m : List (Nat × α)) : List Nat := m.map Prod.fst

/-- Strictly-increasing-keys invariant of the `BTreeMap` model. -/
def btSorted {α : Type} (m : List (Nat × α)) : Prop :=
  List.Pairwise (fun a b : Nat × α => a.1 < b.1) m

/-! ## Data model of the lifecycle manager (`native_activity_thread.rs`)

Binder tokens (`SpIBinder`) are modelled as naturals; `i32`/`i64` values as
`Int`. Numeric values of the external AIDL/NDK constants are not part of the
sources under verification; they are modelled from the spec (distinct trim
levels, distinct completion reasons, and a process-state order in which smaller
is more important and UNKNOWN counts as at least as important as
IMPORTANT_FOREGROUND). -/

/-- Modelled from the spec: completion reason `SERVICE_DONE_EXECUTING_ANON`. -/
def SERVICE_DONE_EXECUTING_ANON : Int := 0

/-- Modelled from the spec: completion reason `SERVICE_DONE_EXECUTING_STOP`. -/
def SERVICE_DONE_EXECUTING_STOP : Int := 1

/-- Modelled from the spec: completion reason `SERVICE_DONE_EXECUTING_REBIND`. -/
def SERVICE_DONE_EXECUTING_REBIND : Int := 2

/-- Modelled from the spec: completion reason `SERVICE_DONE_EXECUTING_UNBIND`. -/
def SERVICE_DONE_EXECUTING_UNBIND : Int := 3

/-- Modelled from the spec: the "background" trim level (weaker of the two). -/
def TRIM_MEMORY_BACKGROUND : Int := 40

/-- Modelled from the spec: the "ui-hidden" trim level. -/
def TRIM_MEMORY_UI_HIDDEN : Int := 20

/-- Modelled from the spec: `ProcessStateEnum::UNKNOWN`, the initial process
state, which compares at-or-more-important-than IMPORTANT_FOREGROUND. -/
def PROCESS_STATE_UNKNOWN : Int := -1

/-- Modelled from the spec: `ProcessStateEnum::IMPORTANT_FOREGROUND`; smaller
process-state values are more important. -/
def PROCESS_STATE_IMPORTANT_FOREGROUND : Int := 6

/-- Presence of the five optional entry points of `ANativeServiceCallbacks`;
the foreign function pointers themselves are opaque, their observable behavior
is delivered by the per-command environments below and recorded as events. -/
structure ServiceCallbacks where
  onBind : Bool
  onUnbind : Bool
  onRebind : Bool
  onDestroy : Bool
  onTrimMemory : Bool

deriving DecidableEq

/-- Model of `NativeService`: the owning namespace, the loaded library and the
callback table populated by the module's create function. -/
structure NativeService where
  namespaceName : String
  libraryName : String
  callbacks : ServiceCallbacks

deriving DecidableEq

/-- Model of `NativeActivityThread`: the lifecycle manager state. -/
structure NativeActivityThread where
  start_seq : Int
  services : List (Nat × NativeService)
  namespace_factory : NamespaceFactory
  process_state : Int

deriving DecidableEq

/-- Constructor `NativeActivityThread::new`. -/
def NativeActivityThread.new (start_seq : Int) : NativeActivityThread :=
  { start_seq
    services := []
    namespace_factory := NamespaceFactory.new ("native_app_" ++ intDecimal start_seq)
    process_state := PROCESS_STATE_UNKNOWN }

/-- Observable events of one command execution: foreign entry-point invocations
and outbound orchestrator calls, in the order they happen. -/
inductive Event where
  | createFunc (token : Nat)
  | onBindCall (token : Nat) (intent : Int) (actionNull : Bool) (dataNull : Bool)
  | onUnbindCall (token : Nat) (intent : Int)
  | onRebindCall (token : Nat) (intent : Int)
  | onDestroyCall (token : Nat)
  | onTrimMemoryCall (token : Nat) (level : Int)
  | serviceDoneExecuting (token : Nat) (reason : Int)
  | publishService (token : Nat) (bindToken : Nat)
  | unbindFinished (token : Nat) (bindToken : Nat)
  | finishAttachApplication (startSeq : Int)

deriving DecidableEq

/-- Result of running one request handler: the `anyhow::Result<()>`, the state
left behind by the `&mut self` mutations (meaningful also on error), and the
event trace. -/
structure StepOut where
  res : RustResult
  state : NativeActivityThread
  events : List Event

deriving DecidableEq

/-- Request structs of `native_application_thread.rs`. -/
structure CreateServiceRequest where
  service_token : Nat
  library_paths : List String
  permitted_libs_dir : String
  library_name : String
  base_symbol_name : String
  process_state : Int

deriving DecidableEq

structure DestroyServiceRequest where
  service_token : Nat

deriving DecidableEq

structure BindServiceRequest where
  service_token : Nat
  bind_token : Nat
  intent_hash : Int
  action : Option String
  data : Option String
  rebind : Bool
  process_state : Int
  bind_seq : Int

deriving DecidableEq

structure UnbindServiceRequest where
  service_token : Nat
  bind_token : Nat
  intent_hash : Int

deriving DecidableEq

/-- Command enum of `native_application_thread.rs`. As in the source it has
exactly six variants; the handler file also names a `SetProcessState` arm, but
no such variant exists in the enum and the endpoint exposes no method for it. -/
inductive NativeApplicationThreadRequest where
  | CreateService (req : CreateServiceRequest)
  | DestroyService (req : DestroyServiceRequest)
  | BindService (req : BindServiceRequest)
  | UnbindService (req : UnbindServiceRequest)
  | TrimMemory (level : Int)
  | BindApplication

deriving DecidableEq

/-- Outcomes of the external calls made while handling one CreateService
command: namespace creation, `android_dlopen_ext`, `dlsym`, the callback table
the module's create function populates, and the completion acknowledgment. -/
structure CreateEnv where
  nsOsOk : Bool
  nsOsDiag : Option String
  loadOk : Bool
  loadDiag : Option String
  symOk : Bool
  symDiag : Option String
  callbacks : ServiceCallbacks
  ackOk : Bool

deriving DecidableEq

/-- Outcome of the completion acknowledgment of a DestroyService command. -/
structure DestroyEnv where
  ackOk : Bool

deriving DecidableEq

/-- Outcomes of the external calls of a BindService command: whether `onBind`
returned null, whether `new_spibinder` succeeded, the publish call, and the
rebind-branch acknowledgment. -/
structure BindEnv where
  bindHandleNull : Bool
  spibinderOk : Bool
  publishOk : Bool
  ackOk : Bool

deriving DecidableEq

/-- Outcomes for an UnbindService command: the boolean returned by `onUnbind`
and the outbound call result. -/
structure UnbindEnv where
  wantsRebind : Bool
  ackOk : Bool

deriving DecidableEq

/-- Outcome of the `finishAttachApplication` call of a BindApplication command. -/
structure BindAppEnv where
  ackOk : Bool

deriving DecidableEq

/-- Model of `NativeActivityThread::handle_create_service_request`. Note the
source order: the namespace is created (bumping the factory serial), the
library is loaded, the entry symbol resolved and invoked, then
`serviceDoneExecuting` is called, and only after a successful acknowledgment is
the service inserted into the table. -/
def handle_create_service_request (s : NativeActivityThread)
    (req : CreateServiceRequest) (env : CreateEnv) : StepOut :=
  match create_linker_namespace s.namespace_factory ⟨env.nsOsOk, env.nsOsDiag⟩
      req.library_paths req.permitted_libs_dir with
  | .error e => ⟨.err e, s, []⟩
  | .ok (ns, factory1) =>
    let s1 : NativeActivityThread := { s with namespace_factory := factory1 }
    if hasNul req.library_name then ⟨.err "Invalid library name", s1, []⟩
    else if ¬ env.loadOk then
      ⟨.err (dlerrMsg ("Failed to open the library " ++ req.library_name) env.loadDiag), s1, []⟩
    else if hasNul req.base_symbol_name then ⟨.err "Invalid symbol name", s1, []⟩
    else if ¬ env.symOk then
      ⟨.err (dlerrMsg ("Failed to find the symbol " ++ req.base_symbol_name) env.symDiag), s1, []⟩
    else
      let evs := [Event.createFunc req.service_token,
        Event.serviceDoneExecuting req.service_token SERVICE_DONE_EXECUTING_ANON]
      if ¬ env.ackOk then ⟨.err "Failed to call serviceDoneExecuting", s1, evs⟩
      else
        ⟨.ok,
          { s1 with services :=
              (btInsert req.service_token (NativeService.mk ns.name req.library_name env.callbacks) s1.services) },
          evs⟩

/-- Model of `NativeActivityThread::handle_destroy_service_request`: the service
is removed from the table first, then `onDestroy` runs if present, then the
acknowledgment; an acknowledgment failure leaves the service already removed. -/
def handle_destroy_service_request (s : NativeActivityThread)
    (req : DestroyServiceRequest) (env : DestroyEnv) : StepOut :=
  match btRemove req.service_token s.services with
  | none => ⟨.err "service not found", s, []⟩
  | some (svc, services1) =>
    let s1 : NativeActivityThread := { s with services := services1 }
    let evs := (if svc.callbacks.onDestroy then [Event.onDestroyCall req.service_token] else [])
      ++ [Event.serviceDoneExecuting req.service_token SERVICE_DONE_EXECUTING_STOP]
    if env.ackOk then ⟨.ok, s1, evs⟩
    else ⟨.err "Failed to call serviceDoneExecuting", s1, evs⟩

/-- Model of `NativeActivityThread::handle_bind_service_request`. For a fresh
bind the `onBind` entry point is required; the optional action and data strings
are converted with `CString::new(..).ok()`, so an absent string or one with an
interior NUL passes a null pointer. For a rebind, `onRebind` runs if present. -/
def handle_bind_service_request (s : NativeActivityThread)
    (req : BindServiceRequest) (env : BindEnv) : StepOut :=
  match btGet req.service_token s.services with
  | none => ⟨.err "service not found", s, []⟩
  | some svc =>
    if ¬ req.rebind then
      if ¬ svc.callbacks.onBind then ⟨.err "onBind must be implemented", s, []⟩
      else
        let actionNull := match req.action with
          | none => true
          | some a => hasNul a
        let dataNull := match req.data with
          | none => true
          | some d => hasNul d
        let evs := [Event.onBindCall req.service_token req.intent_hash actionNull dataNull]
        if env.bindHandleNull then ⟨.err "onBind returned the null pointer", s, evs⟩
        else if ¬ env.spibinderOk then
          ⟨.err "Failed to create SpIBinder from ABinder", s, evs⟩
        else
          let evs1 := evs ++ [Event.publishService req.service_token req.bind_token]
          if env.publishOk then ⟨.ok, s, evs1⟩
          else ⟨.err "Failed to call publishService", s, evs1⟩
    else
      let evs := (if svc.callbacks.onRebind
          then [Event.onRebindCall req.service_token req.intent_hash] else [])
        ++ [Event.serviceDoneExecuting req.service_token SERVICE_DONE_EXECUTING_REBIND]
      if env.ackOk then ⟨.ok, s, evs⟩
      else ⟨.err "Failed to call serviceDoneExecuting", s, evs⟩

/-- Model of `NativeActivityThread::handle_unbind_service_request`: `onUnbind`
runs if present and its boolean return decides between `unbindFinished` and an
ordinary completion acknowledgment. -/
def handle_unbind_service_request (s : NativeActivityThread)
    (req : UnbindServiceRequest) (env : UnbindEnv) : StepOut :=
  match btGet req.service_token s.services with
  | none => ⟨.err "service not found", s, []⟩
  | some svc =>
    let evs := if svc.callbacks.onUnbind
      then [Event.onUnbindCall req.service_token req.intent_hash] else []
    let wants := svc.callbacks.onUnbind && env.wantsRebind
    if wants then
      let evs1 := evs ++ [Event.unbindFinished req.service_token req.bind_token]
      if env.ackOk then ⟨.ok, s, evs1⟩
      else ⟨.err "Failed to call unbindFinished", s, evs1⟩
    else
      let evs1 := evs ++ [Event.serviceDoneExecuting req.service_token SERVICE_DONE_EXECUTING_UNBIND]
      if env.ackOk then ⟨.ok, s, evs1⟩
      else ⟨.err "Failed to call serviceDoneExecuting", s, evs1⟩

/-- Model of `NativeActivityThread::handle_trim_memory_request`: the level must
be one of the two recognized values; a background-level trim is suppressed while
the process state is at-or-more-important-than IMPORTANT_FOREGROUND; otherwise
every service with an `onTrimMemory` entry point is invoked in table order. -/
def handle_trim_memory_request (s : NativeActivityThread) (level : Int) : StepOut :=
  if level ≠ TRIM_MEMORY_BACKGROUND ∧ level ≠ TRIM_MEMORY_UI_HIDDEN then
    ⟨.err ("Received an unexpected level: " ++ intDecimal level), s, []⟩
  else if s.process_state ≤ PROCESS_STATE_IMPORTANT_FOREGROUND ∧
      level = TRIM_MEMORY_BACKGROUND then
    ⟨.ok, s, []⟩
  else
    ⟨.ok, s, s.services.filterMap (fun p =>
      if p.2.callbacks.onTrimMemory then some (Event.onTrimMemoryCall p.1 level) else none)⟩

/-- Model of `NativeActivityThread::handle_bind_application_request`. -/
def handle_bind_application_request (s : NativeActivityThread) (env : BindAppEnv) : StepOut :=
  if env.ackOk then ⟨.ok, s, [Event.finishAttachApplication s.start_seq]⟩
  else ⟨.err "Failed to call finishAttachApplication", s, [Event.finishAttachApplication s.start_seq]⟩

/-- Model of `NativeActivityThread::handle_set_process_state`: overwrites the
process state unconditionally and always succeeds. -/
def handle_set_process_state (s : NativeActivityThread) (state : Int) : StepOut :=
  ⟨.ok, { s with process_state := state }, []⟩

/-- Environment bundle for dispatching one command. -/
structure TaskEnv where
  create : CreateEnv
  destroy : DestroyEnv
  bind : BindEnv
  unbind : UnbindEnv
  bindApp : BindAppEnv

deriving DecidableEq

/-- Model of `HandlerCallback::handle_task` for `NativeActivityThread`: dispatch
over the six variants the command enum actually has. -/
def handleTask (s : NativeActivityThread) (env : TaskEnv) :
    NativeApplicationThreadRequest → StepOut
  | .CreateService req => handle_create_service_request s req env.create
  | .DestroyService req => handle_destroy_service_request s req env.destroy
  | .BindService req => handle_bind_service_request s req env.bind
  | .UnbindService req => handle_unbind_service_request s req env.unbind
  | .TrimMemory level => handle_trim_memory_request s level
  | .BindApplication => handle_bind_application_request s env.bindApp

/-! ## Task handoff model (`task.rs`)

The mpsc queue is a list (front = oldest). `Sender::send` pushes onto the queue
when the consumer side is alive and then writes to the waker eventfd; the
eventfd write is a fallible OS call. `HandlerInner::handle_tasks` drains the
queue until it is empty or `handle_task` first fails; on a failure the
registered `poll_callback` panics, so the handler never dispatches again —
modelled by an absorbing `dead` flag. -/

/-- Result of one `Sender::send` call. -/
structure SendOut (τ : Type) where
  res : RustResult
  queue : List τ
  wakeSignaled : Bool

deriving DecidableEq

/-- Model of `Sender::send`: `mpsc::Sender::send` fails (without enqueuing) when
the consumer side is torn down; otherwise the task is pushed and the waker
eventfd written, whose failure is surfaced as an error although the task is
already on the queue. -/
def senderSend {τ : Type} (consumerAlive wakeWriteOk : Bool) (q : List τ) (t : τ) :
    SendOut τ :=
  if consumerAlive then
    { res := if wakeWriteOk then .ok else .err "Failed to write to the waker fd"
      queue := q ++ [t]
      wakeSignaled := wakeWriteOk }
  else
    { res := .err "Failed to send the task", queue := q, wakeSignaled := false }

/-- Model of `HandlerInner::handle_tasks` for an abstract callback
`f : σ → τ → Option σ` (`none` = the callback returned `Err`): returns the
callback state on success or `none` on failure, the list of tasks passed to
`handle_task` in order, and the tasks left undelivered. -/
def handleTasks {σ τ : Type} (f : σ → τ → Option σ) : σ → List τ →
    Option σ × List τ × List τ
  | s, [] => (some s, [], [])
  | s, t :: rest =>
    match f s t with
    | some s1 =>
      let r := handleTasks f s1 rest
      (r.1, t :: r.2.1, r.2.2)
    | none => (none, [t], rest)

/-- Owner-thread handler system: callback state, pending queue, the absorbing
failure flag (the source panics in `poll_callback` on a callback error), and
the cumulative list of tasks ever passed to `handle_task`. -/
structure HandlerSys (σ τ : Type) where
  cbState : σ
  queue : List τ
  dead : Bool
  dispatched : List τ

deriving DecidableEq

/-- External stimuli: a cross-thread `send`, or a reactor wake-up draining the
queue. -/
inductive SysEvent (τ : Type) where
  | send (t : τ)
  | wake

deriving DecidableEq

/-- One step of the handler system. A send enqueues (the mpsc channel accepts
tasks regardless of the handler's fate); a wake on a live handler drains via
`handleTasks`, and a callback failure makes the handler permanently dead. -/
def sysStep {σ τ : Type} (f : σ → τ → Option σ) (s : HandlerSys σ τ) :
    SysEvent τ → HandlerSys σ τ
  | .send t => { s with queue := s.queue ++ [t] }
  | .wake =>
    if s.dead then s
    else
      let r := handleTasks f s.cbState s.queue
      { cbState := r.1.getD s.cbState
        queue := r.2.2
        dead := r.1.isNone
        dispatched := s.dispatched ++ r.2.1 }

/-- Run the handler system over a list of stimuli. -/
def sysRun {σ τ : Type} (f : σ → τ → Option σ) (s : HandlerSys σ τ)
    (evs : List (SysEvent τ)) : HandlerSys σ τ :=
  evs.foldl (sysStep f) s

/-! ## RPC endpoint model (`native_application_thread.rs`)

Each `INativeApplicationThread` method constructs its command value and calls
`Sender::send`; a send failure is mapped to a service-specific binder error.
The implemented surface has exactly six methods — there is no
set-process-state method. -/

/-- Model of `NativeApplicationThread::scheduleCreateService`. -/
def scheduleCreateService (consumerAlive wakeWriteOk : Bool)
    (q : List NativeApplicationThreadRequest) (service_token : Nat)
    (library_paths : List String) (permitted_libs_dir library_name base_symbol_name : String)
    (process_state : Int) : SendOut NativeApplicationThreadRequest :=
  senderSend consumerAlive wakeWriteOk q
    (.CreateService ⟨service_token, library_paths, permitted_libs_dir,
      library_name, base_symbol_name, process_state⟩)

/-- Model of `NativeApplicationThread::scheduleDestroyService`. -/
def scheduleDestroyService (consumerAlive wakeWriteOk : Bool)
    (q : List NativeApplicationThreadRequest) (service_token : Nat) :
    SendOut NativeApplicationThreadRequest :=
  senderSend consumerAlive wakeWriteOk q (.DestroyService ⟨service_token⟩)

/-- Model of `NativeApplicationThread::scheduleBindService`. -/
def scheduleBindService (consumerAlive wakeWriteOk : Bool)
    (q : List NativeApplicationThreadRequest) (service_token bind_token : Nat)
    (intent_hash : Int) (action data : Option String) (rebind : Bool)
    (process_state : Int) (bind_seq : Int) : SendOut NativeApplicationThreadRequest :=
  senderSend consumerAlive wakeWriteOk q
    (.BindService ⟨service_token, bind_token, intent_hash, action, data,
      rebind, process_state, bind_seq⟩)

/-- Model of `NativeApplicationThread::scheduleUnbindService`. -/
def scheduleUnbindService (consumerAlive wakeWriteOk : Bool)
    (q : List NativeApplicationThreadRequest) (service_token bind_token : Nat)
    (intent_hash : Int) : SendOut NativeApplicationThreadRequest :=
  senderSend consumerAlive wakeWriteOk q
    (.UnbindService ⟨service_token, bind_token, intent_hash⟩)

/-- Model of `NativeApplicationThread::scheduleTrimMemory`. -/
def scheduleTrimMemory (consumerAlive wakeWriteOk : Bool)
    (q : List NativeApplicationThreadRequest) (level : Int) :
    SendOut NativeApplicationThreadRequest :=
  senderSend consumerAlive wakeWriteOk q (.TrimMemory level)

/-- Model of `NativeApplicationThread::bindApplication`. -/
def scheduleBindApplication (consumerAlive wakeWriteOk : Bool)
    (q : List NativeApplicationThreadRequest) : SendOut NativeApplicationThreadRequest :=
  senderSend consumerAlive wakeWriteOk q .BindApplication

def c7_example_state : NativeActivityThread :=
  { start_seq := 0
    services := [(1, ⟨"n1", "l1", ⟨true, true, true, true, true⟩⟩),
      (2, ⟨"n2", "l2", ⟨true, true, true, true, false⟩⟩)]
    namespace_factory := ⟨"b", 2⟩
    process_state := 0 }

/-- Example callback for the fail-stop witness: fails on task 99. -/
def c5_example_callback : Nat → Nat → Option Nat :=
  fun s t => if t = 99 then none else some (s + t)

deriving instance DecidableEq for Except

def c4_example_req : CreateServiceRequest :=
  { service_token := 5, library_paths := ["/a"], permitted_libs_dir := "/p",
    library_name := "libfoo.so", base_symbol_name := "ANativeService_create",
    process_state := 0 }

def c4_example_env : CreateEnv :=
  { nsOsOk := true, nsOsDiag := none, loadOk := true, loadDiag := none,
    symOk := true, symDiag := none,
    callbacks := ⟨true, true, true, true, true⟩, ackOk := false }

def c1_example_state : NativeActivityThread :=
  { start_seq := 0
    services := [(3, ⟨"ns_old", "libold.so", ⟨false, false, false, true, false⟩⟩)]
    namespace_factory := ⟨"app", 1⟩
    process_state := 0 }

def c1_example_req : CreateServiceRequest :=
  { service_token := 3, library_paths := ["/a"], permitted_libs_dir := "/p",
    library_name := "libnew.so", base_symbol_name := "ANativeService_create",
    process_state := 0 }

def c1_example_env : CreateEnv :=
  { nsOsOk := true, nsOsDiag := none, loadOk := true, loadDiag := none,
    symOk := true, symDiag := none,
    callbacks := ⟨true, false, false, false, false⟩, ackOk := true }

/-- Commands for create/destroy sequences, each bundling the request with the
outcomes of its external calls. -/
inductive LifecycleCmd where
  | create (req : CreateServiceRequest) (env : CreateEnv)
  | destroy (req : DestroyServiceRequest) (env : DestroyEnv)

deriving DecidableEq

/-- Dispatch one lifecycle command. -/
def lcStep (s : NativeActivityThread) : LifecycleCmd → StepOut
  | .create req env => handle_create_service_request s req env
  | .destroy req env => handle_destroy_service_request s req env

/-- Process a command sequence in order. -/
def lcRun (s : NativeActivityThread) : List LifecycleCmd → NativeActivityThread
  | [] => s
  | c :: rest => lcRun (lcStep s c).state rest

/-- Whether every command in the sequence succeeds. -/
def lcOk (s : NativeActivityThread) : List LifecycleCmd → Bool
  | [] => true
  | c :: rest => ((lcStep s c).res == .ok) && lcOk (lcStep s c).state rest

/-- Tokens of the CreateService commands of a sequence, in order. -/
def lcCreateToks : List LifecycleCmd → List Nat
  | [] => []
  | .create req _ :: rest => req.service_token :: lcCreateToks rest
  | .destroy _ _ :: rest => lcCreateToks rest

/-- Tokens of the DestroyService commands of a sequence, in order. -/
def lcDestroyToks : List LifecycleCmd → List Nat
  | [] => []
  | .create _ _ :: rest => lcDestroyToks rest
  | .destroy req _ :: rest => req.service_token :: lcDestroyToks rest

def c3_example_cmds : List LifecycleCmd :=
  [.create ⟨1, ["/a"], "/p", "lib1.so", "e1", 0⟩
      ⟨true, none, true, none, true, none, ⟨true, true, true, true, true⟩, true⟩,
    .create ⟨2, ["/a"], "/p", "lib2.so", "e2", 0⟩
      ⟨true, none, true, none, true, none, ⟨true, true, true, true, true⟩, true⟩,
    .destroy ⟨1⟩ ⟨true⟩]

theorem natDecimalAux_eq_digits (fuel n : Nat) (h : n ≤ fuel) :
    natDecimalAux fuel n = ((Nat.digits 10 n).map digitChar10).reverse := by
  induction fuel generalizing n with
  | zero =>
    interval_cases n
    simp [natDecimalAux]
  | succ fuel ih =>
    by_cases hn : n = 0
    · subst hn; simp [natDecimalAux]
    · have hdiv : n / 10 ≤ fuel := by
        have : n / 10 < n := Nat.div_lt_self (Nat.pos_of_ne_zero hn) (by omega)
        omega
      rw [natDecimalAux, if_neg hn, ih _ hdiv,
        Nat.digits_def' (by omega : 1 < 10) (Nat.pos_of_ne_zero hn)]
      simp

theorem digitChar10_inj {a b : Nat} (ha : a < 10) (hb : b < 10)
    (h : digitChar10 a = digitChar10 b) : a = b := by
  revert h
  interval_cases a <;> interval_cases b <;> decide

theorem map_digitChar10_inj : ∀ (l1 l2 : List Nat), (∀ d ∈ l1, d < 10) →
    (∀ d ∈ l2, d < 10) → l1.map digitChar10 = l2.map digitChar10 → l1 = l2 := by
  intro l1
  induction l1 with
  | nil => intro l2 _ _ h; cases l2 <;> simp_all
  | cons a l1 ih =>
    intro l2 h1 h2 h
    cases l2 with
    | nil => simp_all
    | cons b l2 =>
      simp only [List.map_cons, List.cons.injEq] at h
      have hab : a = b :=
        digitChar10_inj (h1 a (by simp)) (h2 b (by simp)) h.1
      have : l1 = l2 := by
        refine ih l2 (fun d hd => h1 d (by simp [hd])) (fun d hd => h2 d (by simp [hd])) h.2
      simp [hab, this]

theorem natDecimal_injective : Function.Injective natDecimal := by
  intro m n h
  unfold natDecimal at h
  have key : ∀ a b : Nat, a ≠ 0 → b ≠ 0 →
      (⟨natDecimalAux a a⟩ : String) = ⟨natDecimalAux b b⟩ → a = b := by
    intro a b ha hb hs
    rw [natDecimalAux_eq_digits a a le_rfl, natDecimalAux_eq_digits b b le_rfl] at hs
    have hlists : ((Nat.digits 10 a).map digitChar10).reverse =
        ((Nat.digits 10 b).map digitChar10).reverse := by
      exact congrArg String.data hs
    have hmap : (Nat.digits 10 a).map digitChar10 = (Nat.digits 10 b).map digitChar10 :=
      List.reverse_injective hlists
    have hd : Nat.digits 10 a = Nat.digits 10 b :=
      map_digitChar10_inj _ _
        (fun d hd => Nat.digits_lt_base (by omega) hd)
        (fun d hd => Nat.digits_lt_base (by omega) hd) hmap
    have := congrArg (Nat.ofDigits 10) hd
    rwa [Nat.ofDigits_digits, Nat.ofDigits_digits] at this
  by_cases hm : m = 0 <;> by_cases hn : n = 0
  · omega
  · rw [if_pos hm, if_neg hn] at h
    exfalso
    have hdig : ['0'] = ((Nat.digits 10 n).map digitChar10).reverse := by
      have := congrArg String.data h
      rwa [natDecimalAux_eq_digits n n le_rfl] at this
    have : (Nat.digits 10 n).map digitChar10 = ['0'] := by
      have := congrArg List.reverse hdig
      simpa using this.symm
    have hdn : Nat.digits 10 n = [0] := by
      refine map_digitChar10_inj _ _ (fun d hd => Nat.digits_lt_base (by omega) hd)
        (by intro d hd; simp at hd; omega) ?_
      simpa [digitChar10] using this
    have := congrArg (Nat.ofDigits 10) hdn
    rw [Nat.ofDigits_digits] at this
    simp [Nat.ofDigits] at this
    exact hn this
  · rw [if_neg hm, if_pos hn] at h
    exfalso
    have hdig : ((Nat.digits 10 m).map digitChar10).reverse = ['0'] := by
      have := congrArg String.data h
      rwa [natDecimalAux_eq_digits m m le_rfl] at this
    have : (Nat.digits 10 m).map digitChar10 = ['0'] := by
      have := congrArg List.reverse hdig
      simpa using this
    have hdm : Nat.digits 10 m = [0] := by
      refine map_digitChar10_inj _ _ (fun d hd => Nat.digits_lt_base (by omega) hd)
        (by intro d hd; simp at hd; omega) ?_
      simpa [digitChar10] using this
    have := congrArg (Nat.ofDigits 10) hdm
    rw [Nat.ofDigits_digits] at this
    simp [Nat.ofDigits] at this
    exact hm this
  · rw [if_neg hm, if_neg hn] at h
    exact key m n hm hn h

theorem mkNamespaceName_inj (base : String) {s1 s2 : Nat}
    (h : mkNamespaceName base s1 = mkNamespaceName base s2) : s1 = s2 := by
  unfold mkNamespaceName at h
  have hdata := congrArg String.data h
  simp only [String.data_append, List.append_assoc] at hdata
  have : (natDecimal s1).data = (natDecimal s2).data :=
    List.append_cancel_left (List.append_cancel_left hdata)
  exact natDecimal_injective (String.ext this)

theorem create_linker_namespace_base (f : NamespaceFactory) (env : CreateNsEnv)
    (paths : List String) (permitted : String) (ns : LinkerNamespace)
    (f1 : NamespaceFactory)
    (h : create_linker_namespace f env paths permitted = .ok (ns, f1)) :
    f1.base_name = f.base_name ∧ f1.serial = f.serial + 1 ∧
      ns.name = mkNamespaceName f.base_name f.serial := by
  unfold create_linker_namespace at h
  split at h
  · simp at h
  split at h
  · simp at h
  split at h
  · simp at h
  split at h
  · split at h
    · simp only [Except.ok.injEq, Prod.mk.injEq] at h
      obtain ⟨h1, h2⟩ := h
      subst h2
      exact ⟨rfl, rfl, (congrArg LinkerNamespace.name h1).symm⟩
    · simp at h
  · simp at h

theorem runFactory_name_serial (calls : List (CreateNsEnv × List String × String)) :
    ∀ (f : NamespaceFactory) (n : String), n ∈ runFactory f calls →
      ∃ s, f.serial ≤ s ∧ n = mkNamespaceName f.base_name s := by
  induction calls with
  | nil => intro f n hn; simp [runFactory] at hn
  | cons c rest ih =>
    intro f n hn
    obtain ⟨env, paths, permitted⟩ := c
    unfold runFactory at hn
    split at hn
    case h_1 ns f1 heq =>
      obtain ⟨hbase, hserial, hname⟩ :=
        create_linker_namespace_base f env paths permitted ns f1 heq
      rcases List.mem_cons.mp hn with hhd | htl
      · exact ⟨f.serial, le_rfl, by rw [hhd, hname]⟩
      · obtain ⟨s, hs, hn1⟩ := ih f1 n htl
        exact ⟨s, by omega, by rw [hn1, hbase]⟩
    case h_2 _ =>
      exact ih f n hn

theorem runFactory_nodup (calls : List (CreateNsEnv × List String × String)) :
    ∀ f : NamespaceFactory, (runFactory f calls).Nodup := by
  induction calls with
  | nil => intro f; simp [runFactory]
  | cons c rest ih =>
    intro f
    obtain ⟨env, paths, permitted⟩ := c
    unfold runFactory
    split
    case h_1 ns f1 heq =>
      obtain ⟨hbase, hserial, hname⟩ :=
        create_linker_namespace_base f env paths permitted ns f1 heq
      refine List.nodup_cons.mpr ⟨?_, ih f1⟩
      intro hmem
      obtain ⟨s, hs, hn1⟩ := runFactory_name_serial rest f1 ns.name hmem
      rw [hbase] at hn1
      have : s = f.serial := mkNamespaceName_inj f.base_name (hn1.symm.trans hname)
      omega
    case h_2 _ =>
      exact ih f

theorem btKeys_btInsert {α : Type} (k : Nat) (v : α) :
    ∀ (m : List (Nat × α)) (x : Nat),
      x ∈ btKeys (btInsert k v m) ↔ x = k ∨ x ∈ btKeys m := by
  intro m
  induction m with
  | nil => intro x; simp [btInsert, btKeys]
  | cons a rest ih =>
    intro x
    obtain ⟨k1, v1⟩ := a
    unfold btInsert
    by_cases h1 : k < k1
    · simp [h1, btKeys]
    · by_cases h2 : k = k1
      · subst h2
        simp [h1, btKeys]
      · simp only [if_neg h1, if_neg h2]
        simp [btKeys] at ih ⊢
        rw [ih x]
        tauto

theorem btSorted_btInsert {α : Type} (k : Nat) (v : α) :
    ∀ m : List (Nat × α), btSorted m → btSorted (btInsert k v m) := by
  intro m
  induction m with
  | nil => intro _; simp [btInsert, btSorted]
  | cons a rest ih =>
    intro hs
    obtain ⟨k1, v1⟩ := a
    rw [btSorted, List.pairwise_cons] at hs
    obtain ⟨hhd, htl⟩ := hs
    unfold btInsert
    by_cases h1 : k < k1
    · rw [if_pos h1]
      refine List.Pairwise.cons ?_ (List.Pairwise.cons hhd htl)
      intro b hb
      rcases List.mem_cons.mp hb with hb1 | hb2
      · subst hb1; exact h1
      · exact lt_trans h1 (hhd b hb2)
    · by_cases h2 : k = k1
      · subst h2
        rw [if_neg h1, if_pos rfl]
        exact List.Pairwise.cons hhd htl
      · rw [if_neg h1, if_neg h2]
        refine List.Pairwise.cons ?_ (ih htl)
        intro b hb
        have hbk : b.1 = k ∨ b.1 ∈ btKeys rest := by
          have : b.1 ∈ btKeys (btInsert k v rest) := List.mem_map_of_mem Prod.fst hb
          exact (btKeys_btInsert k v rest b.1).mp this
        rcases hbk with hbk | hbk
        · rw [hbk]; omega
        · obtain ⟨p, hp, hpeq⟩ := List.mem_map.mp hbk
          have := hhd p hp
          simp only at this
          omega

theorem btRemove_none {α : Type} (k : Nat) :
    ∀ m : List (Nat × α), btRemove k m = none ↔ k ∉ btKeys m := by
  intro m
  induction m with
  | nil => simp [btRemove, btKeys]
  | cons a rest ih =>
    obtain ⟨k1, v1⟩ := a
    unfold btRemove
    by_cases h1 : k = k1
    · subst h1
      simp [btKeys]
    · simp only [if_neg h1]
      constructor
      · intro h
        cases heq : btRemove k rest with
        | some p => rw [heq] at h; exact absurd h (by cases p; simp)
        | none =>
          have := ih.mp heq
          simp [btKeys] at this ⊢
          exact ⟨h1, this⟩
      · intro h
        simp [btKeys] at h
        have := ih.mpr (by simp [btKeys]; exact h.2)
        rw [this]

theorem btRemove_some {α : Type} (k : Nat) :
    ∀ (m : List (Nat × α)) (v : α) (m1 : List (Nat × α)),
      btRemove k m = some (v, m1) →
      (k, v) ∈ m ∧ m1.Sublist m ∧
        (btSorted m → ∀ x, x ∈ btKeys m1 ↔ x ∈ btKeys m ∧ x ≠ k) := by
  intro m
  induction m with
  | nil => intro v m1 h; simp [btRemove] at h
  | cons a rest ih =>
    intro v m1 h
    obtain ⟨k1, v1⟩ := a
    unfold btRemove at h
    by_cases h1 : k = k1
    · subst h1
      rw [if_pos rfl] at h
      simp only [Option.some.injEq, Prod.mk.injEq] at h
      obtain ⟨hv, hm⟩ := h
      subst hv; subst hm
      refine ⟨by simp, List.sublist_cons_self _ _, ?_⟩
      intro hs x
      rw [btSorted, List.pairwise_cons] at hs
      obtain ⟨hhd, _⟩ := hs
      simp only [btKeys, List.map_cons, List.mem_cons]
      constructor
      · intro hx
        refine ⟨Or.inr hx, ?_⟩
        obtain ⟨p, hp, hpeq⟩ := List.mem_map.mp hx
        have := hhd p hp
        omega
      · intro ⟨hx, hne⟩
        rcases hx with hx | hx
        · exact absurd hx hne
        · exact hx
    · rw [if_neg h1] at h
      cases heq : btRemove k rest with
      | none => rw [heq] at h; simp at h
      | some p =>
        obtain ⟨v2, rest1⟩ := p
        rw [heq] at h
        simp only [Option.some.injEq, Prod.mk.injEq] at h
        obtain ⟨hv, hm⟩ := h
        obtain ⟨hmem, hsub, hkeys⟩ := ih v2 rest1 heq
        subst hv; subst hm
        refine ⟨by simp [hmem], List.Sublist.cons₂ _ hsub, ?_⟩
        intro hs x
        rw [btSorted, List.pairwise_cons] at hs
        obtain ⟨_, htl⟩ := hs
        simp only [btKeys, List.map_cons, List.mem_cons]
        rw [show (btKeys rest1 = List.map Prod.fst rest1) from rfl] at hkeys
        constructor
        · intro hx
          rcases hx with hx | hx
          · exact ⟨Or.inl hx, by omega⟩
          · have := (hkeys htl x).mp hx
            exact ⟨Or.inr this.1, this.2⟩
        · intro ⟨hx, hne⟩
          rcases hx with hx | hx
          · exact Or.inl hx
          · exact Or.inr ((hkeys htl x).mpr ⟨hx, hne⟩)

theorem btSorted_sublist {α : Type} {m m1 : List (Nat × α)}
    (hsub : m1.Sublist m) (hs : btSorted m) : btSorted m1 :=
  List.Pairwise.sublist hsub hs

theorem btGet_btInsert_self {α : Type} (k : Nat) (v : α) :
    ∀ m : List (Nat × α), btGet k (btInsert k v m) = some v := by
  intro m
  induction m with
  | nil => simp [btInsert, btGet]
  | cons a rest ih =>
    obtain ⟨k1, v1⟩ := a
    unfold btInsert
    by_cases h1 : k < k1
    · simp [h1, btGet]
    · by_cases h2 : k = k1
      · subst h2; simp [h1, btGet]
      · simp [h1, h2, btGet, ih]

theorem btGet_isSome_iff {α : Type} (k : Nat) :
    ∀ m : List (Nat × α), (btGet k m).isSome ↔ k ∈ btKeys m := by
  intro m
  induction m with
  | nil => simp [btGet, btKeys]
  | cons a rest ih =>
    obtain ⟨k1, v1⟩ := a
    unfold btGet
    by_cases h1 : k = k1
    · subst h1; simp [btKeys]
    · rw [if_neg h1]
      simp only [btKeys, List.map_cons, List.mem_cons]
      rw [ih]
      simp only [btKeys]
      constructor
      · intro h; exact Or.inr h
      · rintro (h | h)
        · exact absurd h h1
        · exact h

/-! ## Supporting lemmas -/

theorem hasNul_append (a b : String) : hasNul (a ++ b) = (hasNul a || hasNul b) := by
  simp [hasNul, String.data_append]

theorem natDecimal_hasNul (n : Nat) : hasNul (natDecimal n) = false := by
  have hchar : ∀ d : Nat, d < 10 → (digitChar10 d == Char.ofNat 0) = false := by
    intro d hd
    interval_cases d <;> decide
  unfold natDecimal
  by_cases hn : n = 0
  · simp [hn, hasNul]
  · rw [if_neg hn]
    have : natDecimalAux n n = ((Nat.digits 10 n).map digitChar10).reverse :=
      natDecimalAux_eq_digits n n le_rfl
    simp only [hasNul, this]
    rw [List.any_eq_false]
    intro c hc
    rw [List.mem_reverse, List.mem_map] at hc
    obtain ⟨d, hd, hdc⟩ := hc
    have := hchar d (Nat.digits_lt_base (by omega) hd)
    rw [← hdc]
    simp [this]

theorem btSorted_keys_nodup {α : Type} {m : List (Nat × α)} (h : btSorted m) :
    (btKeys m).Nodup := by
  have h2 : List.Pairwise (fun a b : Nat => a ≠ b) (m.map Prod.fst) :=
    List.Pairwise.map Prod.fst (fun a b hab => Nat.ne_of_lt hab) h
  simpa [btKeys, List.Nodup] using h2

theorem filterMap_if_eq_map_filter {α β : Type} (c : α → Bool) (g : α → β) :
    ∀ l : List α,
      l.filterMap (fun a => if c a then some (g a) else none) = (l.filter c).map g := by
  intro l
  induction l with
  | nil => simp
  | cons a rest ih => by_cases h : c a <;> simp [h, ih]

theorem handle_create_process_state (s : NativeActivityThread)
    (req : CreateServiceRequest) (env : CreateEnv) :
    (handle_create_service_request s req env).state.process_state = s.process_state := by
  unfold handle_create_service_request
  split
  · rfl
  · dsimp only
    split
    · rfl
    · split
      · rfl
      · split
        · rfl
        · split
          · rfl
          · split
            · rfl
            · rfl

theorem handle_destroy_process_state (s : NativeActivityThread)
    (req : DestroyServiceRequest) (env : DestroyEnv) :
    (handle_destroy_service_request s req env).state.process_state = s.process_state := by
  unfold handle_destroy_service_request
  split
  · rfl
  · dsimp only
    split
    · rfl
    · rfl

theorem handle_bind_process_state (s : NativeActivityThread)
    (req : BindServiceRequest) (env : BindEnv) :
    (handle_bind_service_request s req env).state.process_state = s.process_state := by
  unfold handle_bind_service_request
  split
  · rfl
  · dsimp only
    split
    · split
      · rfl
      · split
        · rfl
        · split
          · rfl
          · split
            · rfl
            · rfl
    · split
      · rfl
      · rfl

theorem handle_unbind_process_state (s : NativeActivityThread)
    (req : UnbindServiceRequest) (env : UnbindEnv) :
    (handle_unbind_service_request s req env).state.process_state = s.process_state := by
  unfold handle_unbind_service_request
  split
  · rfl
  · dsimp only
    split
    · split
      · rfl
      · rfl
    · split
      · rfl
      · rfl

theorem handle_trim_process_state (s : NativeActivityThread) (level : Int) :
    (handle_trim_memory_request s level).state.process_state = s.process_state := by
  unfold handle_trim_memory_request
  split
  · rfl
  · split
    · rfl
    · rfl

theorem handle_bind_application_process_state (s : NativeActivityThread) (env : BindAppEnv) :
    (handle_bind_application_request s env).state.process_state = s.process_state := by
  unfold handle_bind_application_request
  split
  · rfl
  · rfl

theorem handleTask_process_state (s : NativeActivityThread) (env : TaskEnv)
    (cmd : NativeApplicationThreadRequest) :
    (handleTask s env cmd).state.process_state = s.process_state := by
  cases cmd with
  | CreateService req => exact handle_create_process_state s req env.create
  | DestroyService req => exact handle_destroy_process_state s req env.destroy
  | BindService req => exact handle_bind_process_state s req env.bind
  | UnbindService req => exact handle_unbind_process_state s req env.unbind
  | TrimMemory level => exact handle_trim_process_state s level
  | BindApplication => exact handle_bind_application_process_state s env.bindApp

/-! ## Claim theorems -/

/-- C9: every successful `create_linker_namespace` call allocates a
process-unique name — the monotonic serial suffixed to the base name — so no
two successful calls on the same factory produce the same name; the call fails
when the `u32` serial would overflow, and an OS failure surfaces the `dlerror`
diagnostic string. -/
theorem c9_namespace_names_unique (f : NamespaceFactory)
    (calls : List (CreateNsEnv × List String × String))
    (env : CreateNsEnv) (paths : List String) (permitted : String) :
    (runFactory f calls).Nodup ∧
    (∀ (ns : LinkerNamespace) (f1 : NamespaceFactory),
      create_linker_namespace f env paths permitted = .ok (ns, f1) →
      ns.name = mkNamespaceName f.base_name f.serial ∧
      f1.serial = f.serial + 1 ∧ f1.base_name = f.base_name) ∧
    (hasNul (mkNamespaceName f.base_name f.serial) = false →
      hasNul (String.intercalate ":" paths) = false →
      hasNul permitted = false → env.osOk = true → f.serial = UINT32_MAX →
      create_linker_namespace f env paths permitted =
        .error "too many namespaces were created") ∧
    (hasNul (mkNamespaceName f.base_name f.serial) = false →
      hasNul (String.intercalate ":" paths) = false →
      hasNul permitted = false → env.osOk = false →
      create_linker_namespace f env paths permitted =
        .error (dlerrMsg "android_create_namespace failed" env.osDiag)) := by
  refine ⟨runFactory_nodup calls f, ?_, ?_, ?_⟩
  · intro ns f1 h
    obtain ⟨hb, hs, hn⟩ := create_linker_namespace_base f env paths permitted ns f1 h
    exact ⟨hn, hs, hb⟩
  · intro h1 h2 h3 h4 h5
    unfold create_linker_namespace
    rw [if_neg (by simp [h1]), if_neg (by simp [h2]), if_neg (by simp [h3]),
      if_pos h4, if_neg (by rw [h5]; omega)]
  · intro h1 h2 h3 h4
    unfold create_linker_namespace
    rw [if_neg (by simp [h1]), if_neg (by simp [h2]), if_neg (by simp [h3]),
      if_neg (by simp [h4])]

theorem c9_namespace_names_unique_witness :
    (runFactory (NamespaceFactory.new "native_app_7")
      [(⟨true, none⟩, ["/a"], "/p"), (⟨true, none⟩, ["/a"], "/p")]).Nodup ∧
    create_linker_namespace ⟨"svc", UINT32_MAX⟩ ⟨true, none⟩ ["/a"] "/p" =
      .error "too many namespaces were created" ∧
    create_linker_namespace ⟨"svc", 0⟩ ⟨false, some "ns oops"⟩ ["/a"] "/p" =
      .error (dlerrMsg "android_create_namespace failed" (some "ns oops")) := by
  refine ⟨(c9_namespace_names_unique (NamespaceFactory.new "native_app_7")
      [(⟨true, none⟩, ["/a"], "/p"), (⟨true, none⟩, ["/a"], "/p")]
      ⟨true, none⟩ ["/a"] "/p").1, ?_, ?_⟩
  · refine (c9_namespace_names_unique ⟨"svc", UINT32_MAX⟩ [] ⟨true, none⟩
      ["/a"] "/p").2.2.1 ?_ (by decide) (by decide) rfl rfl
    rw [mkNamespaceName, hasNul_append, natDecimal_hasNul]
    decide
  · exact (c9_namespace_names_unique ⟨"svc", 0⟩ [] ⟨false, some "ns oops"⟩
      ["/a"] "/p").2.2.2 (by decide) (by decide) (by decide) rfl

/-- C6 counterexample: with the consumer side alive but the waker-eventfd write
failing, `Sender::send` returns an error even though the consumer side has not
been torn down — and the task has nevertheless been pushed onto the queue —
refuting "send returns an error if and only if the queue's consumer side has
been torn down". -/
theorem c6_counterexample :
    (senderSend true false ([] : List NativeApplicationThreadRequest)
      NativeApplicationThreadRequest.BindApplication).res ≠ RustResult.ok ∧
    (senderSend true false ([] : List NativeApplicationThreadRequest)
      NativeApplicationThreadRequest.BindApplication).queue =
      [NativeApplicationThreadRequest.BindApplication] := by
  decide

/-- C6 amended: `Sender::send` succeeds exactly when the consumer side is alive
and the waker write succeeds; a torn-down consumer makes it fail without
enqueuing or waking; whenever the consumer is alive the task is pushed onto the
FIFO queue (even if the subsequent wake write fails), and whenever send returns
Ok the task has been pushed and the wake primitive signaled. -/
theorem c6_send_semantics {τ : Type} (consumerAlive wakeWriteOk : Bool)
    (q : List τ) (t : τ) :
    ((senderSend consumerAlive wakeWriteOk q t).res = .ok ↔
      consumerAlive = true ∧ wakeWriteOk = true) ∧
    ((senderSend consumerAlive wakeWriteOk q t).res = .ok →
      (senderSend consumerAlive wakeWriteOk q t).queue = q ++ [t] ∧
      (senderSend consumerAlive wakeWriteOk q t).wakeSignaled = true) ∧
    (consumerAlive = false →
      (senderSend consumerAlive wakeWriteOk q t).res = .err "Failed to send the task" ∧
      (senderSend consumerAlive wakeWriteOk q t).queue = q ∧
      (senderSend consumerAlive wakeWriteOk q t).wakeSignaled = false) ∧
    (consumerAlive = true →
      (senderSend consumerAlive wakeWriteOk q t).queue = q ++ [t] ∧
      ((senderSend consumerAlive wakeWriteOk q t).res = .ok ↔ wakeWriteOk = true)) := by
  cases consumerAlive <;> cases wakeWriteOk <;> simp [senderSend]

theorem c6_send_semantics_witness :
    (senderSend true true ([] : List Nat) 5).queue = [] ++ [5] ∧
    (senderSend true true ([] : List Nat) 5).wakeSignaled = true ∧
    (senderSend false true ([] : List Nat) 5).res = .err "Failed to send the task" := by
  refine ⟨?_, ?_, ?_⟩
  · exact ((c6_send_semantics true true ([] : List Nat) 5).2.1 (by decide)).1
  · exact ((c6_send_semantics true true ([] : List Nat) 5).2.1 (by decide)).2
  · exact ((c6_send_semantics false true ([] : List Nat) 5).2.2.1 rfl).1

/-- C8: a BindService command with `rebind = false` on a token whose service has
no `onBind` entry point fails with "onBind must be implemented", leaves the
state unchanged, and produces no events — so no foreign entry point is invoked
and `publishService` is never called. -/
theorem c8_bind_requires_onbind (s : NativeActivityThread)
    (req : BindServiceRequest) (env : BindEnv) (svc : NativeService)
    (hrebind : req.rebind = false)
    (hget : btGet req.service_token s.services = some svc)
    (hnobind : svc.callbacks.onBind = false) :
    handle_bind_service_request s req env =
      ⟨.err "onBind must be implemented", s, []⟩ := by
  unfold handle_bind_service_request
  rw [hget]
  simp [hrebind, hnobind]

theorem c8_bind_requires_onbind_witness :
    handle_bind_service_request
      { start_seq := 0,
        services := [(4, ⟨"ns0", "libx.so", ⟨false, true, true, true, true⟩⟩)],
        namespace_factory := ⟨"b", 1⟩, process_state := 0 }
      { service_token := 4, bind_token := 9, intent_hash := 2, action := none,
        data := none, rebind := false, process_state := 0, bind_seq := 0 }
      ⟨false, true, true, true⟩ =
      ⟨.err "onBind must be implemented",
        { start_seq := 0,
          services := [(4, ⟨"ns0", "libx.so", ⟨false, true, true, true, true⟩⟩)],
          namespace_factory := ⟨"b", 1⟩, process_state := 0 }, []⟩ :=
  c8_bind_requires_onbind _ _ _ ⟨"ns0", "libx.so", ⟨false, true, true, true, true⟩⟩
    rfl rfl rfl

/-- C7: a background-level TrimMemory command while the process state is at or
more important than IMPORTANT_FOREGROUND succeeds with zero foreign calls and
unchanged state (suppression is a no-op, not an error); any valid, unsuppressed
level invokes exactly the services whose callback tables have a trim entry
point, with that level, in table order. -/
theorem c7_trim_memory_behavior (s : NativeActivityThread) (level : Int) :
    (s.process_state ≤ PROCESS_STATE_IMPORTANT_FOREGROUND →
      handle_trim_memory_request s TRIM_MEMORY_BACKGROUND = ⟨.ok, s, []⟩) ∧
    ((level = TRIM_MEMORY_BACKGROUND ∨ level = TRIM_MEMORY_UI_HIDDEN) →
      ¬ (s.process_state ≤ PROCESS_STATE_IMPORTANT_FOREGROUND ∧
          level = TRIM_MEMORY_BACKGROUND) →
      handle_trim_memory_request s level =
        ⟨.ok, s, (s.services.filter (fun p => p.2.callbacks.onTrimMemory)).map
          (fun p => Event.onTrimMemoryCall p.1 level)⟩) := by
  constructor
  · intro h
    unfold handle_trim_memory_request
    rw [if_neg (by simp [TRIM_MEMORY_BACKGROUND, TRIM_MEMORY_UI_HIDDEN]),
      if_pos ⟨h, rfl⟩]
  · intro hvalid hnosup
    unfold handle_trim_memory_request
    rw [if_neg (by tauto), if_neg hnosup,
      filterMap_if_eq_map_filter (fun p => p.2.callbacks.onTrimMemory)
        (fun p => Event.onTrimMemoryCall p.1 level) s.services]

theorem c7_trim_memory_behavior_witness :
    handle_trim_memory_request c7_example_state TRIM_MEMORY_BACKGROUND =
      ⟨.ok, c7_example_state, []⟩ ∧
    handle_trim_memory_request c7_example_state TRIM_MEMORY_UI_HIDDEN =
      ⟨.ok, c7_example_state, [Event.onTrimMemoryCall 1 TRIM_MEMORY_UI_HIDDEN]⟩ := by
  constructor
  · exact (c7_trim_memory_behavior c7_example_state TRIM_MEMORY_BACKGROUND).1
      (by decide)
  · have h := (c7_trim_memory_behavior c7_example_state TRIM_MEMORY_UI_HIDDEN).2
      (Or.inr rfl) (by decide)
    rw [h]
    decide

/-- C10: a fresh `NativeActivityThread` starts with `process_state` equal to the
UNKNOWN value, which compares at-or-more-important-than IMPORTANT_FOREGROUND;
in any state with that process state a background-level TrimMemory command is
suppressed (success, zero foreign calls, state unchanged); and no command of
the task enum ever changes the process state, so this holds until a
set-process-state is executed. -/
theorem c10_initial_state_suppresses_background_trim (seq : Int) :
    (NativeActivityThread.new seq).process_state = PROCESS_STATE_UNKNOWN ∧
    PROCESS_STATE_UNKNOWN ≤ PROCESS_STATE_IMPORTANT_FOREGROUND ∧
    (∀ s : NativeActivityThread, s.process_state = PROCESS_STATE_UNKNOWN →
      handle_trim_memory_request s TRIM_MEMORY_BACKGROUND = ⟨.ok, s, []⟩) ∧
    (∀ (s : NativeActivityThread) (env : TaskEnv)
        (cmd : NativeApplicationThreadRequest),
      (handleTask s env cmd).state.process_state = s.process_state) := by
  refine ⟨rfl, by decide, ?_, handleTask_process_state⟩
  intro s hs
  unfold handle_trim_memory_request
  rw [if_neg (by simp [TRIM_MEMORY_BACKGROUND, TRIM_MEMORY_UI_HIDDEN]),
    if_pos ⟨by rw [hs]; decide, rfl⟩]

theorem c10_initial_state_witness :
    handle_trim_memory_request (NativeActivityThread.new 3) TRIM_MEMORY_BACKGROUND =
      ⟨.ok, NativeActivityThread.new 3, []⟩ :=
  (c10_initial_state_suppresses_background_trim 3).2.2.1
    (NativeActivityThread.new 3) rfl

/-- C2: the command enum has exactly the six variants CreateService,
DestroyService, BindService, UnbindService, TrimMemory and BindApplication —
there is no SetProcessState command value, so the endpoint cannot expose a
set-process-state operation — while the owner-thread handler
`handle_set_process_state` does overwrite the process state unconditionally;
and each of the six implemented endpoint methods constructs its corresponding
command from its arguments and enqueues it through `send`. -/
theorem c2_endpoint_surface_and_set_process_state :
    (∀ c : NativeApplicationThreadRequest,
      (∃ r, c = .CreateService r) ∨ (∃ r, c = .DestroyService r) ∨
      (∃ r, c = .BindService r) ∨ (∃ r, c = .UnbindService r) ∨
      (∃ l, c = .TrimMemory l) ∨ c = .BindApplication) ∧
    (∀ (s : NativeActivityThread) (st : Int),
      handle_set_process_state s st = ⟨.ok, { s with process_state := st }, []⟩) ∧
    (∀ (w : Bool) (q : List NativeApplicationThreadRequest) (tok : Nat)
        (lp : List String) (pd ln bs : String) (ps : Int),
      (scheduleCreateService true w q tok lp pd ln bs ps).queue =
        q ++ [.CreateService ⟨tok, lp, pd, ln, bs, ps⟩]) ∧
    (∀ (w : Bool) (q : List NativeApplicationThreadRequest) (tok : Nat),
      (scheduleDestroyService true w q tok).queue = q ++ [.DestroyService ⟨tok⟩]) ∧
    (∀ (w : Bool) (q : List NativeApplicationThreadRequest) (tok bt : Nat)
        (ih : Int) (a d : Option String) (rb : Bool) (ps bsq : Int),
      (scheduleBindService true w q tok bt ih a d rb ps bsq).queue =
        q ++ [.BindService ⟨tok, bt, ih, a, d, rb, ps, bsq⟩]) ∧
    (∀ (w : Bool) (q : List NativeApplicationThreadRequest) (tok bt : Nat) (ih : Int),
      (scheduleUnbindService true w q tok bt ih).queue =
        q ++ [.UnbindService ⟨tok, bt, ih⟩]) ∧
    (∀ (w : Bool) (q : List NativeApplicationThreadRequest) (l : Int),
      (scheduleTrimMemory true w q l).queue = q ++ [.TrimMemory l]) ∧
    (∀ (w : Bool) (q : List NativeApplicationThreadRequest),
      (scheduleBindApplication true w q).queue = q ++ [.BindApplication]) := by
  refine ⟨?_, fun s st => rfl, fun _ _ _ _ _ _ _ _ => rfl, fun _ _ _ => rfl,
    fun _ _ _ _ _ _ _ _ _ _ => rfl, fun _ _ _ _ _ => rfl, fun _ _ _ => rfl,
    fun _ _ => rfl⟩
  intro c
  cases c with
  | CreateService r => exact Or.inl ⟨r, rfl⟩
  | DestroyService r => exact Or.inr (Or.inl ⟨r, rfl⟩)
  | BindService r => exact Or.inr (Or.inr (Or.inl ⟨r, rfl⟩))
  | UnbindService r => exact Or.inr (Or.inr (Or.inr (Or.inl ⟨r, rfl⟩)))
  | TrimMemory l => exact Or.inr (Or.inr (Or.inr (Or.inr (Or.inl ⟨l, rfl⟩))))
  | BindApplication => exact Or.inr (Or.inr (Or.inr (Or.inr (Or.inr rfl))))

theorem handleTasks_fail_split {σ τ : Type} (f : σ → τ → Option σ) :
    ∀ (q : List τ) (c : σ) (d rem : List τ),
      handleTasks f c q = (none, d, rem) → q = d ++ rem := by
  intro q
  induction q with
  | nil => intro c d rem h; simp [handleTasks] at h
  | cons t rest ih =>
    intro c d rem h
    unfold handleTasks at h
    cases hf : f c t with
    | some c1 =>
      simp only [hf] at h
      rcases hr : handleTasks f c1 rest with ⟨r1, r2, r3⟩
      rw [hr] at h
      simp only [Prod.mk.injEq] at h
      obtain ⟨h1, h2, h3⟩ := h
      subst h1
      have := ih c1 r2 r3 hr
      rw [← h2, ← h3, this]
      simp
    | none =>
      simp only [hf, Prod.mk.injEq] at h
      obtain ⟨-, h2, h3⟩ := h
      rw [← h2, ← h3]
      simp

theorem sysRun_dead_frozen {σ τ : Type} (f : σ → τ → Option σ) :
    ∀ (evs : List (SysEvent τ)) (s : HandlerSys σ τ), s.dead = true →
      (sysRun f s evs).dead = true ∧ (sysRun f s evs).dispatched = s.dispatched := by
  intro evs
  induction evs with
  | nil => intro s h; exact ⟨h, rfl⟩
  | cons e rest ih =>
    intro s h
    cases e with
    | send t =>
      have := ih { s with queue := s.queue ++ [t] } h
      simpa [sysRun, sysStep] using this
    | wake =>
      have hstep : sysStep f s .wake = s := by simp [sysStep, h]
      simp only [sysRun, List.foldl_cons] at ih ⊢
      rw [hstep]
      exact ih s h

/-- C5: when `handle_task` fails on some task during a drain, the handler
dispatches no further tasks, permanently: the drain passed exactly the queue
prefix ending at the failing task to `handle_task`, the tasks after it were
never dispatched, the handler becomes dead, and no later stimuli — sends or
wakes — ever grow the dispatched list again. -/
theorem c5_fail_stop {σ τ : Type} (f : σ → τ → Option σ) (s : HandlerSys σ τ)
    (d rem : List τ)
    (hlive : s.dead = false)
    (hfail : handleTasks f s.cbState s.queue = (none, d, rem)) :
    s.queue = d ++ rem ∧
    (sysStep f s .wake).dead = true ∧
    (sysStep f s .wake).dispatched = s.dispatched ++ d ∧
    (∀ evs : List (SysEvent τ),
      (sysRun f (sysStep f s .wake) evs).dispatched = s.dispatched ++ d) := by
  have hsplit := handleTasks_fail_split f s.queue s.cbState d rem hfail
  have hstep : sysStep f s .wake =
      { cbState := s.cbState, queue := rem, dead := true,
        dispatched := s.dispatched ++ d } := by
    simp [sysStep, hlive, hfail]
  refine ⟨hsplit, by rw [hstep], by rw [hstep], ?_⟩
  intro evs
  have hfr := sysRun_dead_frozen f evs (sysStep f s .wake) (by rw [hstep])
  rw [hfr.2, hstep]

theorem c5_fail_stop_witness :
    ([1, 99, 2] : List Nat) = [1, 99] ++ [2] ∧
    (sysStep c5_example_callback ⟨0, [1, 99, 2], false, []⟩ .wake).dead = true ∧
    (sysStep c5_example_callback ⟨0, [1, 99, 2], false, []⟩ .wake).dispatched =
      [] ++ [1, 99] ∧
    (sysRun c5_example_callback
      (sysStep c5_example_callback ⟨0, [1, 99, 2], false, []⟩ .wake)
      [.send 7, .wake]).dispatched = [] ++ [1, 99] := by
  obtain ⟨h1, h2, h3, h4⟩ := c5_fail_stop c5_example_callback
    ⟨0, [1, 99, 2], false, []⟩ [1, 99] [2] rfl (by decide)
  exact ⟨h1, h2, h3, h4 [.send 7, .wake]⟩

theorem handle_create_success_shape (s : NativeActivityThread)
    (req : CreateServiceRequest) (env : CreateEnv)
    (ns : LinkerNamespace) (f1 : NamespaceFactory)
    (hns : create_linker_namespace s.namespace_factory ⟨env.nsOsOk, env.nsOsDiag⟩
      req.library_paths req.permitted_libs_dir = .ok (ns, f1))
    (hlib : hasNul req.library_name = false)
    (hload : env.loadOk = true)
    (hsymn : hasNul req.base_symbol_name = false)
    (hsym : env.symOk = true) :
    handle_create_service_request s req env =
      ⟨if env.ackOk then .ok else .err "Failed to call serviceDoneExecuting",
        { s with
          namespace_factory := f1
          services := if env.ackOk then
              btInsert req.service_token ⟨ns.name, req.library_name, env.callbacks⟩
                s.services
            else s.services },
        [Event.createFunc req.service_token,
          Event.serviceDoneExecuting req.service_token SERVICE_DONE_EXECUTING_ANON]⟩ := by
  unfold handle_create_service_request
  rw [hns]
  simp only [hlib, hload, hsymn, hsym]
  cases hack : env.ackOk <;> simp

theorem handle_create_ok_services (s : NativeActivityThread)
    (req : CreateServiceRequest) (env : CreateEnv)
    (h : (handle_create_service_request s req env).res = .ok) :
    ∃ svc, (handle_create_service_request s req env).state.services =
      btInsert req.service_token svc s.services := by
  cases hns : create_linker_namespace s.namespace_factory ⟨env.nsOsOk, env.nsOsDiag⟩
      req.library_paths req.permitted_libs_dir with
  | error e =>
    unfold handle_create_service_request at h
    rw [hns] at h
    simp at h
  | ok p =>
    obtain ⟨ns, f1⟩ := p
    by_cases h1 : hasNul req.library_name
    · unfold handle_create_service_request at h
      rw [hns] at h
      simp [h1] at h
    by_cases h2 : env.loadOk
    case neg =>
      unfold handle_create_service_request at h
      rw [hns] at h
      simp [h1, h2] at h
    by_cases h3 : hasNul req.base_symbol_name
    · unfold handle_create_service_request at h
      rw [hns] at h
      simp [h1, h2, h3] at h
    by_cases h4 : env.symOk
    case neg =>
      unfold handle_create_service_request at h
      rw [hns] at h
      simp [h1, h2, h3, h4] at h
    have hshape := handle_create_success_shape s req env ns f1 hns
      (by simpa using h1) h2 (by simpa using h3) h4
    rw [hshape] at h ⊢
    cases hack : env.ackOk with
    | false => rw [hack] at h; simp at h
    | true =>
      refine ⟨⟨ns.name, req.library_name, env.callbacks⟩, ?_⟩
      simp

theorem handle_destroy_ok_services (s : NativeActivityThread)
    (req : DestroyServiceRequest) (env : DestroyEnv)
    (h : (handle_destroy_service_request s req env).res = .ok) :
    ∃ v rest, btRemove req.service_token s.services = some (v, rest) ∧
      (handle_destroy_service_request s req env).state.services = rest := by
  unfold handle_destroy_service_request at h ⊢
  split at h
  · simp at h
  case h_2 svc services1 heq =>
    rw [heq]
    dsimp only at h ⊢
    split at h
    · exact ⟨svc, services1, rfl, by split <;> rfl⟩
    · simp at h

/-- C4 counterexample: a CreateService command whose namespace creation, module
load, symbol resolution and entry-point invocation all succeed but whose
completion report fails leaves the table WITHOUT the service — the
`serviceDoneExecuting` call happens before the insertion, so a failed report
means the insertion never happened, refuting "the HostedService is inserted
into the table before the completion report is issued". -/
theorem c4_counterexample :
    (handle_create_service_request (NativeActivityThread.new 0) c4_example_req
      c4_example_env).events =
      [Event.createFunc 5, Event.serviceDoneExecuting 5 SERVICE_DONE_EXECUTING_ANON] ∧
    (handle_create_service_request (NativeActivityThread.new 0) c4_example_req
      c4_example_env).res = .err "Failed to call serviceDoneExecuting" ∧
    (handle_create_service_request (NativeActivityThread.new 0) c4_example_req
      c4_example_env).state.services = [] := by
  decide

/-- C4 amended: for a CreateService command whose setup steps all succeed, the
completion report to the orchestrator is issued before the table insertion; if
the report fails the command fails and the insertion has NOT happened — the
token stays unregistered — and only if the report succeeds is the HostedService
inserted. -/
theorem c4_ack_before_insert (s : NativeActivityThread)
    (req : CreateServiceRequest) (env : CreateEnv)
    (ns : LinkerNamespace) (f1 : NamespaceFactory)
    (hns : create_linker_namespace s.namespace_factory ⟨env.nsOsOk, env.nsOsDiag⟩
      req.library_paths req.permitted_libs_dir = .ok (ns, f1))
    (hlib : hasNul req.library_name = false)
    (hload : env.loadOk = true)
    (hsymn : hasNul req.base_symbol_name = false)
    (hsym : env.symOk = true) :
    (handle_create_service_request s req env).events =
      [Event.createFunc req.service_token,
        Event.serviceDoneExecuting req.service_token SERVICE_DONE_EXECUTING_ANON] ∧
    (env.ackOk = false →
      (handle_create_service_request s req env).res =
        .err "Failed to call serviceDoneExecuting" ∧
      (handle_create_service_request s req env).state.services = s.services) ∧
    (env.ackOk = true →
      (handle_create_service_request s req env).res = .ok ∧
      (handle_create_service_request s req env).state.services =
        btInsert req.service_token ⟨ns.name, req.library_name, env.callbacks⟩
          s.services) := by
  have hshape := handle_create_success_shape s req env ns f1 hns hlib hload hsymn hsym
  rw [hshape]
  refine ⟨rfl, ?_, ?_⟩ <;> intro hack <;> simp [hack]

theorem c4_ack_before_insert_witness :
    (handle_create_service_request (NativeActivityThread.new 1) c4_example_req
      { c4_example_env with ackOk := false }).state.services =
      (NativeActivityThread.new 1).services ∧
    (handle_create_service_request (NativeActivityThread.new 1) c4_example_req
      { c4_example_env with ackOk := true }).res = .ok := by
  constructor
  · exact ((c4_ack_before_insert (NativeActivityThread.new 1) c4_example_req
      { c4_example_env with ackOk := false }
      ⟨mkNamespaceName "native_app_1" 0⟩ ⟨"native_app_1", 1⟩
      (by decide) (by decide) rfl (by decide) rfl).2.1 rfl).2
  · exact ((c4_ack_before_insert (NativeActivityThread.new 1) c4_example_req
      { c4_example_env with ackOk := true }
      ⟨mkNamespaceName "native_app_1" 0⟩ ⟨"native_app_1", 1⟩
      (by decide) (by decide) rfl (by decide) rfl).2.2 rfl).1

/-- C1 counterexample: a CreateService on token 3, which already maps to a live
service whose callback table HAS a destroy entry point, succeeds and installs
the replacement, but no destroy event ever occurs — the old service is dropped
without its destroy entry point being invoked, refuting "if it replaces, the
old service's destroy entry point is invoked before the replacement is
installed". -/
theorem c1_counterexample :
    (handle_create_service_request c1_example_state c1_example_req
      c1_example_env).res = .ok ∧
    btGet 3 (handle_create_service_request c1_example_state c1_example_req
      c1_example_env).state.services =
      some ⟨mkNamespaceName "app" 1, "libnew.so", ⟨true, false, false, false, false⟩⟩ ∧
    Event.onDestroyCall 3 ∉
      (handle_create_service_request c1_example_state c1_example_req
        c1_example_env).events := by
  decide

/-- C1 amended: a CreateService on a token already mapping to a live service
(setup steps and acknowledgment succeeding) replaces the old service
atomically — the new service is installed under the token, the key set is
unchanged, and no two live services ever share a token — but the old service's
destroy entry point is NOT invoked (no destroy event occurs). -/
theorem c1_create_replaces_without_destroy (s : NativeActivityThread)
    (req : CreateServiceRequest) (env : CreateEnv)
    (ns : LinkerNamespace) (f1 : NamespaceFactory) (old : NativeService)
    (hns : create_linker_namespace s.namespace_factory ⟨env.nsOsOk, env.nsOsDiag⟩
      req.library_paths req.permitted_libs_dir = .ok (ns, f1))
    (hlib : hasNul req.library_name = false)
    (hload : env.loadOk = true)
    (hsymn : hasNul req.base_symbol_name = false)
    (hsym : env.symOk = true)
    (hack : env.ackOk = true)
    (hsorted : btSorted s.services)
    (hold : btGet req.service_token s.services = some old) :
    (handle_create_service_request s req env).res = .ok ∧
    btGet req.service_token
      (handle_create_service_request s req env).state.services =
      some ⟨ns.name, req.library_name, env.callbacks⟩ ∧
    (∀ x, x ∈ btKeys (handle_create_service_request s req env).state.services ↔
      x ∈ btKeys s.services) ∧
    (btKeys (handle_create_service_request s req env).state.services).Nodup ∧
    (∀ tk, Event.onDestroyCall tk ∉
      (handle_create_service_request s req env).events) := by
  have hshape := handle_create_success_shape s req env ns f1 hns hlib hload hsymn hsym
  simp only [hack, if_true] at hshape
  rw [hshape]
  refine ⟨rfl, btGet_btInsert_self _ _ _, ?_, ?_, ?_⟩
  · intro x
    have htok : req.service_token ∈ btKeys s.services := by
      rw [← btGet_isSome_iff]
      simp [hold]
    rw [btKeys_btInsert]
    constructor
    · rintro (rfl | hx)
      · exact htok
      · exact hx
    · exact Or.inr
  · exact btSorted_keys_nodup (btSorted_btInsert _ _ _ hsorted)
  · intro tk
    simp

theorem c1_create_replaces_without_destroy_witness :
    (handle_create_service_request c1_example_state c1_example_req
      c1_example_env).res = .ok ∧
    btGet 3 (handle_create_service_request c1_example_state c1_example_req
      c1_example_env).state.services =
      some ⟨mkNamespaceName "app" 1, "libnew.so", c1_example_env.callbacks⟩ ∧
    (3 ∈ btKeys (handle_create_service_request c1_example_state c1_example_req
      c1_example_env).state.services ↔ 3 ∈ btKeys c1_example_state.services) := by
  have h := c1_create_replaces_without_destroy c1_example_state c1_example_req
    c1_example_env ⟨mkNamespaceName "app" 1⟩ ⟨"app", 2⟩
    ⟨"ns_old", "libold.so", ⟨false, false, false, true, false⟩⟩
    (by decide) (by decide) rfl (by decide) rfl rfl
    (by simp [c1_example_state, btSorted]) (by decide)
  exact ⟨h.1, h.2.1, h.2.2.1 3⟩

theorem lcStep_create_ok (s : NativeActivityThread) (req : CreateServiceRequest)
    (env : CreateEnv) (h : (lcStep s (.create req env)).res = .ok) :
    ∃ svc, (lcStep s (.create req env)).state.services =
      btInsert req.service_token svc s.services :=
  handle_create_ok_services s req env h

theorem lcStep_destroy_ok (s : NativeActivityThread) (req : DestroyServiceRequest)
    (env : DestroyEnv) (h : (lcStep s (.destroy req env)).res = .ok) :
    ∃ v rest, btRemove req.service_token s.services = some (v, rest) ∧
      (lcStep s (.destroy req env)).state.services = rest :=
  handle_destroy_ok_services s req env h

theorem lcRun_keys (cmds : List LifecycleCmd) :
    ∀ s : NativeActivityThread, btSorted s.services →
      lcOk s cmds = true →
      (lcCreateToks cmds).Nodup →
      (∀ u ∈ lcCreateToks cmds, u ∉ btKeys s.services) →
      ∀ t, t ∈ btKeys (lcRun s cmds).services ↔
        ((t ∈ btKeys s.services ∨ t ∈ lcCreateToks cmds) ∧
          t ∉ lcDestroyToks cmds) := by
  induction cmds with
  | nil =>
    intro s _ _ _ _ t
    simp [lcRun, lcCreateToks, lcDestroyToks]
  | cons c rest ih =>
    intro s hsort hok hnodup hfresh t
    cases c with
    | create req env =>
      rw [lcOk, Bool.and_eq_true, beq_iff_eq] at hok
      obtain ⟨hres, hok1⟩ := hok
      obtain ⟨svc, hserv⟩ := lcStep_create_ok s req env hres
      rw [lcCreateToks] at hnodup hfresh
      rw [List.nodup_cons] at hnodup
      obtain ⟨htok_not, hnodup1⟩ := hnodup
      have hkeys1 : ∀ x, x ∈ btKeys (lcStep s (.create req env)).state.services ↔
          x = req.service_token ∨ x ∈ btKeys s.services := by
        intro x
        rw [hserv, btKeys_btInsert]
      have hsort1 : btSorted (lcStep s (.create req env)).state.services := by
        rw [hserv]
        exact btSorted_btInsert _ _ _ hsort
      have hfresh1 : ∀ u ∈ lcCreateToks rest,
          u ∉ btKeys (lcStep s (.create req env)).state.services := by
        intro u hu
        rw [hkeys1 u]
        rintro (rfl | hks)
        · exact htok_not hu
        · exact hfresh u (List.mem_cons_of_mem _ hu) hks
      have hmain := ih (lcStep s (.create req env)).state hsort1 hok1 hnodup1 hfresh1 t
      rw [lcRun, hmain, hkeys1 t, lcCreateToks, lcDestroyToks]
      simp only [List.mem_cons]
      tauto
    | destroy req env =>
      rw [lcOk, Bool.and_eq_true, beq_iff_eq] at hok
      obtain ⟨hres, hok1⟩ := hok
      obtain ⟨v, rest1, hrem, hserv⟩ := lcStep_destroy_ok s req env hres
      obtain ⟨hmem, hsub, hkeysfun⟩ :=
        btRemove_some req.service_token s.services v rest1 hrem
      rw [lcCreateToks] at hnodup hfresh
      have htok_in : req.service_token ∈ btKeys s.services :=
        List.mem_map_of_mem Prod.fst hmem
      have hkeys1 : ∀ x, x ∈ btKeys (lcStep s (.destroy req env)).state.services ↔
          (x ∈ btKeys s.services ∧ x ≠ req.service_token) := by
        intro x
        rw [hserv]
        exact hkeysfun hsort x
      have hsort1 : btSorted (lcStep s (.destroy req env)).state.services := by
        rw [hserv]
        exact btSorted_sublist hsub hsort
      have hfresh1 : ∀ u ∈ lcCreateToks rest,
          u ∉ btKeys (lcStep s (.destroy req env)).state.services := by
        intro u hu hin
        rw [hkeys1 u] at hin
        exact hfresh u hu hin.1
      have hcr_ne : ∀ u ∈ lcCreateToks rest, u ≠ req.service_token := by
        intro u hu he
        exact hfresh u hu (he ▸ htok_in)
      have hmain := ih (lcStep s (.destroy req env)).state hsort1 hok1 hnodup hfresh1 t
      rw [lcRun, hmain, hkeys1 t, lcCreateToks, lcDestroyToks]
      simp only [List.mem_cons]
      constructor
      · rintro ⟨⟨hks, hne⟩ | hcr, hnd⟩
        · exact ⟨Or.inl hks, fun hor => hor.elim (fun he => hne he) hnd⟩
        · exact ⟨Or.inr hcr, fun hor => hor.elim (fun he => hcr_ne t hcr he) hnd⟩
      · rintro ⟨hks | hcr, hnd⟩
        · exact ⟨Or.inl ⟨hks, fun he => hnd (Or.inl he)⟩, fun hd => hnd (Or.inr hd)⟩
        · exact ⟨Or.inr hcr, fun hd => hnd (Or.inr hd)⟩

/-- C3: for every sequence of CreateService and DestroyService commands with
pairwise-distinct create tokens, processed in order from a fresh thread with
every command's setup steps and acknowledgments succeeding, the service table
afterwards contains exactly the tokens that were created and not destroyed —
a set characterization independent of interleaving order. -/
theorem c3_create_destroy_table (seq : Int) (cmds : List LifecycleCmd)
    (hok : lcOk (NativeActivityThread.new seq) cmds = true)
    (hnodup : (lcCreateToks cmds).Nodup) :
    ∀ t, t ∈ btKeys (lcRun (NativeActivityThread.new seq) cmds).services ↔
      (t ∈ lcCreateToks cmds ∧ t ∉ lcDestroyToks cmds) := by
  intro t
  have h := lcRun_keys cmds (NativeActivityThread.new seq)
    (by simp [NativeActivityThread.new, btSorted]) hok hnodup
    (by intro u hu; simp [NativeActivityThread.new, btKeys]) t
  simpa [NativeActivityThread.new, btKeys] using h

theorem c3_create_destroy_table_witness :
    lcOk (NativeActivityThread.new 0) c3_example_cmds = true ∧
    (lcCreateToks c3_example_cmds).Nodup ∧
    (1 ∈ btKeys (lcRun (NativeActivityThread.new 0) c3_example_cmds).services ↔
      (1 ∈ lcCreateToks c3_example_cmds ∧ 1 ∉ lcDestroyToks c3_example_cmds)) ∧
    (2 ∈ btKeys (lcRun (NativeActivityThread.new 0) c3_example_cmds).services ↔
      (2 ∈ lcCreateToks c3_example_cmds ∧ 2 ∉ lcDestroyToks c3_example_cmds)) := by
  refine ⟨by decide, by decide, ?_, ?_⟩
  · exact c3_create_destroy_table 0 c3_example_cmds (by decide) (by decide) 1
  · exact c3_create_destroy_table 0 c3_example_cmds (by decide) (by decide) 2
